import Mathlib

/-! # RSP pipeline (`rsp/pipeline.c`)

A shallow embedding of the five-stage RSP pipeline of CEN64 and the properties
its specification states about it.

Machine words are natural numbers.  A register slot and the `result` field of a
latch have the same width, so storing a result in a register loses nothing.
The register file and the memory are total maps from an index to a word: an
index outside the C arrays has no meaning in C and is not given one here.

The collaborators of the pipeline that live in other files of the simulator
(the decoder, the table of opcode handlers, the field macros and the constants
of the status register) are the fields of `Env`.
-/

namespace Cen64

/-! ## Data model -/

/-- Common pipeline latch data (`struct rsp_latch`): the program counter of the
instruction that occupies the stage. -/
structure rsp_latch where
  pc : Nat
deriving DecidableEq, Repr

/-- Decoded opcode descriptor (`struct rsp_opcode`): the identifier that selects
the handler, and the static attributes. -/
structure rsp_opcode where
  id : Nat
  flags : Nat
deriving DecidableEq, Repr

/-- Latch written by the fetch stage (`struct rsp_ifrd_latch`). -/
structure rsp_ifrd_latch where
  common : rsp_latch
  pc : Nat
  iw : Nat
deriving DecidableEq, Repr

/-- Latch written by the decode stage (`struct rsp_rdex_latch`). -/
structure rsp_rdex_latch where
  common : rsp_latch
  opcode : rsp_opcode
  iw : Nat
deriving DecidableEq, Repr

/-- Latch written by the execute stage (`struct rsp_exdf_latch`). -/
structure rsp_exdf_latch where
  common : rsp_latch
  result : Nat
  dest : Nat
deriving DecidableEq, Repr

/-- Latch written by the data-fetch stage (`struct rsp_dfwb_latch`). -/
structure rsp_dfwb_latch where
  common : rsp_latch
  result : Nat
  dest : Nat
deriving DecidableEq, Repr

/-- The four latches (`struct rsp_pipeline`). -/
structure rsp_pipeline where
  ifrd_latch : rsp_ifrd_latch
  rdex_latch : rsp_rdex_latch
  exdf_latch : rsp_exdf_latch
  dfwb_latch : rsp_dfwb_latch
deriving DecidableEq, Repr

/-- The processor (`struct rsp`): register file, memory and pipeline. -/
structure rsp where
  regs : Nat → Nat
  mem : Nat → Nat
  pipeline : rsp_pipeline

/-- Modelled from the spec: the enumerator `RSP_REGISTER_R0` of the register
enumeration, which is not in this file; the spec names register index 0 as the
hardwired zero register. -/
def RSP_REGISTER_R0 : Nat := 0

/-- What the pipeline uses from the rest of the simulator: the field macros
`GET_RS` and `GET_RT`, the decoder, the handler table indexed by opcode
identifier, and the index and mask of the halt flag. -/
structure Env where
  GET_RS : Nat → Nat
  GET_RT : Nat → Nat
  rsp_decode_instruction : Nat → rsp_opcode
  rsp_function_table : Nat → rsp → Nat → Nat → Nat → rsp
  RSP_CP0_REGISTER_SP_STATUS : Nat
  SP_STATUS_HALT : Nat

/-- The array store `regs[i] = v`. -/
def setReg (regs : Nat → Nat) (i v : Nat) : Nat → Nat :=
  fun j => if j = i then v else regs j

/-! ## Instruction fetch -/

/-- The `memcpy` of four bytes at `a` into a `uint32_t` of a little-endian
host. -/
def memcpy32 (mem : Nat → Nat) (a : Nat) : Nat :=
  mem a % 256 + (mem (a + 1) % 256) * 2 ^ 8 + (mem (a + 2) % 256) * 2 ^ 16
    + (mem (a + 3) % 256) * 2 ^ 24

/-- Modelled from the spec: `byteswap_32` of `common.h`, which corrects the byte
order of a big-endian word; on a little-endian host it reverses the four
bytes. -/
def byteswap_32 (w : Nat) : Nat :=
  (w % 256) * 2 ^ 24 + (w / 2 ^ 8 % 256) * 2 ^ 16 + (w / 2 ^ 16 % 256) * 2 ^ 8
    + w / 2 ^ 24 % 256

/-- Instruction cache fetch stage (`rsp_if_stage`). -/
def rsp_if_stage (s : rsp) : rsp :=
  let ifrd_latch := s.pipeline.ifrd_latch
  let pc := ifrd_latch.pc
  let iw := byteswap_32 (memcpy32 s.mem (0x1000 + pc))
  { s with pipeline := { s.pipeline with ifrd_latch :=
      { common := { pc := pc }, pc := ((pc + 4) % 2 ^ 32) &&& 0xFFC, iw := iw } } }

/-- The addresses that the `memcpy` of four bytes at `a` reads. -/
def memcpy32_reads (a : Nat) : List Nat := [a, a + 1, a + 2, a + 3]

/-- The memory offsets that `rsp_if_stage` reads: the four bytes at
`rsp->mem + 0x1000 + pc`. -/
def rsp_if_stage_reads (s : rsp) : List Nat :=
  memcpy32_reads (0x1000 + s.pipeline.ifrd_latch.pc)

/-! ## Register fetch and decode -/

/-- Register fetch and decode stage (`rsp_rd_stage`). -/
def rsp_rd_stage (E : Env) (s : rsp) : rsp :=
  let ifrd_latch := s.pipeline.ifrd_latch
  let iw := ifrd_latch.iw
  { s with pipeline := { s.pipeline with rdex_latch :=
      { common := ifrd_latch.common,
        opcode := E.rsp_decode_instruction iw,
        iw := ifrd_latch.iw } } }

/-! ## Execute -/

/-- One call of an opcode handler: the table entry chosen, the processor as it
stands when the handler is entered, and the three arguments. -/
structure Dispatch where
  id : Nat
  state : rsp
  iw : Nat
  rs_reg : Nat
  rt_reg : Nat

/-- The body of `rsp_ex_stage` up to the call of the handler: the latch
metadata, the forwarding install, the two operand reads, the restore and the
default destination. -/
def rsp_ex_dispatch (E : Env) (s : rsp) : Dispatch :=
  let dfwb_latch := s.pipeline.dfwb_latch
  let rdex_latch := s.pipeline.rdex_latch
  let iw := rdex_latch.iw
  let rs := E.GET_RS iw
  let rt := E.GET_RT iw
  -- Forward results from DF/WB.
  let temp := s.regs dfwb_latch.dest
  let regs1 := setReg s.regs dfwb_latch.dest dfwb_latch.result
  let regs2 := setReg regs1 RSP_REGISTER_R0 0
  let rs_reg := regs2 rs
  let rt_reg := regs2 rt
  let regs3 := setReg regs2 dfwb_latch.dest temp
  { id := rdex_latch.opcode.id,
    state := { s with
      regs := regs3,
      pipeline := { s.pipeline with exdf_latch :=
        { s.pipeline.exdf_latch with
          common := rdex_latch.common, dest := RSP_REGISTER_R0 } } },
    iw := iw, rs_reg := rs_reg, rt_reg := rt_reg }

/-- The call `rsp_function_table[id](rsp, iw, rs_reg, rt_reg)`. -/
def callHandler (E : Env) (d : Dispatch) : rsp :=
  E.rsp_function_table d.id d.state d.iw d.rs_reg d.rt_reg

/-- Execution stage (`rsp_ex_stage`). -/
def rsp_ex_stage (E : Env) (s : rsp) : rsp :=
  callHandler E (rsp_ex_dispatch E s)

/-! ## Data fetch and writeback -/

/-- Data cache fetch stage (`rsp_df_stage`). -/
def rsp_df_stage (s : rsp) : rsp :=
  let exdf_latch := s.pipeline.exdf_latch
  { s with pipeline := { s.pipeline with dfwb_latch :=
      { common := exdf_latch.common,
        result := exdf_latch.result,
        dest := exdf_latch.dest } } }

/-- Writeback stage (`rsp_wb_stage`). -/
def rsp_wb_stage (s : rsp) : rsp :=
  let dfwb_latch := s.pipeline.dfwb_latch
  { s with regs :=
      setReg (setReg s.regs dfwb_latch.dest dfwb_latch.result) RSP_REGISTER_R0 0 }

/-! ## Clock driver -/

/-- The test `rsp->regs[RSP_CP0_REGISTER_SP_STATUS] & SP_STATUS_HALT`. -/
def halted (E : Env) (s : rsp) : Bool :=
  (s.regs E.RSP_CP0_REGISTER_SP_STATUS &&& E.SP_STATUS_HALT) != 0

/-- Advances the processor pipeline by one clock (`rsp_cycle`). -/
def rsp_cycle (E : Env) (s : rsp) : rsp :=
  if halted E s then s
  else
    let s1 := rsp_wb_stage s
    let s2 := rsp_df_stage s1
    let s3 := rsp_ex_stage E s2
    let s4 := rsp_rd_stage E s3
    rsp_if_stage s4

/-- The handler calls made by one `rsp_cycle`: none when halted, otherwise the
one call made by the execute stage, which runs after writeback and data
fetch. -/
def rsp_cycle_dispatches (E : Env) (s : rsp) : List Dispatch :=
  if halted E s then []
  else [rsp_ex_dispatch E (rsp_df_stage (rsp_wb_stage s))]

/-- `n` calls of `rsp_cycle` in a row. -/
def rsp_cycles (E : Env) : Nat → rsp → rsp
  | 0, s => s
  | n + 1, s => rsp_cycles E n (rsp_cycle E s)

/-- The handler calls made by `n` calls of `rsp_cycle` in a row, in order. -/
def rsp_cycles_dispatches (E : Env) : Nat → rsp → List Dispatch
  | 0, _ => []
  | n + 1, s => rsp_cycle_dispatches E s ++ rsp_cycles_dispatches E n (rsp_cycle E s)

/-- Initializes the pipeline with default values (`rsp_pipeline_init`): the body
is empty. -/
def rsp_pipeline_init (p : rsp_pipeline) : rsp_pipeline := p

/-! ## Specification-side definitions -/

/-- The forwarding function of the design notes, in the spec's words:
`read-operand(reg-file, pending-writeback, index)` is zero for register 0,
the pending value when the pending destination is `index`, and the register
otherwise. -/
def read_operand (reg_file : Nat → Nat) (pending : rsp_dfwb_latch) (index : Nat) : Nat :=
  if index = 0 then 0
  else if pending.dest = index then pending.result
  else reg_file index

/-- Every handler of the table writes nothing but the destination and the result
of the execute-output latch. -/
def HandlersWriteOnlyExdf (E : Env) : Prop :=
  ∀ (id : Nat) (s : rsp) (iw a b : Nat),
    (E.rsp_function_table id s iw a b).regs = s.regs ∧
    (E.rsp_function_table id s iw a b).mem = s.mem ∧
    (E.rsp_function_table id s iw a b).pipeline.ifrd_latch = s.pipeline.ifrd_latch ∧
    (E.rsp_function_table id s iw a b).pipeline.rdex_latch = s.pipeline.rdex_latch ∧
    (E.rsp_function_table id s iw a b).pipeline.dfwb_latch = s.pipeline.dfwb_latch ∧
    (E.rsp_function_table id s iw a b).pipeline.exdf_latch.common
      = s.pipeline.exdf_latch.common

/-! ## A small instance of the collaborators

Concrete inputs need a decoder and a handler table.  The instance below has the
MIPS field layout, one real instruction (`ADD rd, rs, rt`, opcode identifier 1)
and treats every other word as a no-op (opcode identifier 0).  The halt flag is
bit 0 of register 36. -/

/-- Bits 25..21 of an instruction word. -/
def mipsRS (iw : Nat) : Nat := (iw >>> 21) &&& 0x1F

/-- Bits 20..16 of an instruction word. -/
def mipsRT (iw : Nat) : Nat := (iw >>> 16) &&& 0x1F

/-- Bits 15..11 of an instruction word. -/
def mipsRD (iw : Nat) : Nat := (iw >>> 11) &&& 0x1F

/-- Decoder of the instance: `SPECIAL` with function code `0x20` is `ADD`. -/
def demoDecode (iw : Nat) : rsp_opcode :=
  if iw >>> 26 = 0 ∧ iw &&& 0x3F = 0x20 then { id := 1, flags := 0 }
  else { id := 0, flags := 0 }

/-- Handler table of the instance: entry 1 adds, every other entry does
nothing. -/
def demoTable (id : Nat) (s : rsp) (iw rs_reg rt_reg : Nat) : rsp :=
  if id = 1 then
    { s with pipeline := { s.pipeline with exdf_latch :=
        { s.pipeline.exdf_latch with
          result := (rs_reg + rt_reg) % 2 ^ 32, dest := mipsRD iw } } }
  else s

/-- The instance. -/
def demoEnv : Env where
  GET_RS := mipsRS
  GET_RT := mipsRT
  rsp_decode_instruction := demoDecode
  rsp_function_table := demoTable
  RSP_CP0_REGISTER_SP_STATUS := 36
  SP_STATUS_HALT := 1

/-- A pipeline whose latches are all zero. -/
def zeroPipeline : rsp_pipeline where
  ifrd_latch := { common := { pc := 0 }, pc := 0, iw := 0 }
  rdex_latch := { common := { pc := 0 }, opcode := { id := 0, flags := 0 }, iw := 0 }
  exdf_latch := { common := { pc := 0 }, result := 0, dest := 0 }
  dfwb_latch := { common := { pc := 0 }, result := 0, dest := 0 }

/-- A register file given by the list of its non-zero slots. -/
def regsOf (l : List (Nat × Nat)) : Nat → Nat :=
  fun i => ((l.find? (fun p => p.1 == i)).map Prod.snd).getD 0

/-- A memory given by its first bytes from address `base`, zero elsewhere. -/
def memOf (base : Nat) (bytes : List Nat) : Nat → Nat :=
  fun a => if a < base then 0 else bytes.getD (a - base) 0

/-! ## Inputs of the concrete checks -/

/-- A halted processor in mid-flight: the halt flag is set, every latch is
occupied and an `ADD` is waiting in the decode-output latch. -/
def haltedState : rsp where
  regs := regsOf [(1, 5), (2, 7), (36, 1)]
  mem := memOf 0x1000 [0x00, 0x22, 0x18, 0x20]
  pipeline :=
    { ifrd_latch := { common := { pc := 4 }, pc := 8, iw := 0x00221820 }
      rdex_latch := { common := { pc := 0 }, opcode := { id := 1, flags := 0 },
                      iw := 0x00221820 }
      exdf_latch := { common := { pc := 0xFFC }, result := 9, dest := 4 }
      dfwb_latch := { common := { pc := 0xFF8 }, result := 3, dest := 5 } }

/-- A processor whose register 0 holds 7 while the pending destination is
register 0. -/
def dirtyZeroPendingZero : rsp where
  regs := regsOf [(0, 7), (1, 2)]
  mem := memOf 0x1000 []
  pipeline := { zeroPipeline with
    dfwb_latch := { common := { pc := 0 }, result := 9, dest := 0 } }

/-- A running processor in mid-flight: as `haltedState`, with the halt flag
clear. -/
def runningState : rsp where
  regs := regsOf [(1, 5), (2, 7), (5, 1)]
  mem := memOf 0x1000 [0x00, 0x22, 0x18, 0x20]
  pipeline := haltedState.pipeline

/-- A running processor in which the instruction at writeback and the instruction
at data fetch both write register 1 (results 5 and 9), while the instruction at
execute reads register 1 through its `rs` field. -/
def twoProducers : rsp where
  regs := regsOf []
  mem := memOf 0x1000 []
  pipeline := { zeroPipeline with
    rdex_latch := { common := { pc := 8 }, opcode := { id := 0, flags := 0 },
                    iw := 0x00200000 }
    exdf_latch := { common := { pc := 4 }, result := 9, dest := 1 }
    dfwb_latch := { common := { pc := 0 }, result := 5, dest := 1 } }

/-- A running processor in which the instruction at writeback writes 5 to
register 1, the instruction at data fetch writes register 2, and the instruction
at execute reads register 1 through `rs` and `rt`. -/
def oneProducer : rsp where
  regs := regsOf [(1, 3)]
  mem := memOf 0x1000 []
  pipeline := { zeroPipeline with
    rdex_latch := { common := { pc := 8 }, opcode := { id := 0, flags := 0 },
                    iw := 0x00210000 }
    exdf_latch := { common := { pc := 4 }, result := 9, dest := 2 }
    dfwb_latch := { common := { pc := 0 }, result := 5, dest := 1 } }

/-- The big-endian store of the low 32 bits of `w` at address `a`. -/
def store32 (mem : Nat → Nat) (a w : Nat) : Nat → Nat :=
  fun x =>
    if x = a then w / 2 ^ 24 % 256
    else if x = a + 1 then w / 2 ^ 16 % 256
    else if x = a + 2 then w / 2 ^ 8 % 256
    else if x = a + 3 then w % 256
    else mem x

/-- Decoder of the instance with a store: major opcode `0x2B` is `SW` (opcode
identifier 2), every other word is decoded as in `demoDecode`. -/
def storeDecode (iw : Nat) : rsp_opcode :=
  if iw >>> 26 = 0x2B then { id := 2, flags := 0 } else demoDecode iw

/-- Handler table of the instance with a store: entry 2 writes its second operand
to the data memory at the address given by the first operand plus the 16-bit
offset, wrapped into the data memory, and leaves the latches alone; the other
entries are those of `demoTable`. -/
def storeTable (id : Nat) (s : rsp) (iw rs_reg rt_reg : Nat) : rsp :=
  if id = 2 then
    { s with mem := store32 s.mem ((rs_reg + (iw &&& 0xFFFF)) &&& 0xFFC) rt_reg }
  else demoTable id s iw rs_reg rt_reg

/-- The instance with a store. -/
def storeEnv : Env where
  GET_RS := mipsRS
  GET_RT := mipsRT
  rsp_decode_instruction := storeDecode
  rsp_function_table := storeTable
  RSP_CP0_REGISTER_SP_STATUS := 36
  SP_STATUS_HALT := 1

/-- Two instructions back to back: `ADD r4, r1, r2` is in the decode-output latch
and `SW r4, 0(r0)`, which reads register 4 and writes memory, has just been
fetched; register 4 holds 100. -/
def addThenStore : rsp where
  regs := regsOf [(1, 5), (2, 7), (4, 100)]
  mem := memOf 0x1000 []
  pipeline := { zeroPipeline with
    ifrd_latch := { common := { pc := 4 }, pc := 8, iw := 0xAC040000 }
    rdex_latch := { common := { pc := 0 }, opcode := { id := 1, flags := 0 },
                    iw := 0x00222020 } }

/-- The latency scenario of the spec: all latches zero, registers zero except
`r1 = 5` and `r2 = 7`, halt flag clear, `ADD r3, r1, r2` at address 0 of the
instruction memory and zero words (no-ops) after it. -/
def latencyScenario : rsp where
  regs := regsOf [(1, 5), (2, 7)]
  mem := memOf 0x1000 [0x00, 0x22, 0x18, 0x20]
  pipeline := zeroPipeline

/-- A processor about to fetch at the top of the instruction window. -/
def topOfWindow : rsp where
  regs := regsOf []
  mem := memOf 0x1000 []
  pipeline := { zeroPipeline with
    ifrd_latch := { common := { pc := 0xFF8 }, pc := 0xFFC, iw := 0 } }

/-- A pipeline none of whose latch fields is zero. -/
def busyPipeline : rsp_pipeline where
  ifrd_latch := { common := { pc := 4 }, pc := 8, iw := 0x00221820 }
  rdex_latch := { common := { pc := 12 }, opcode := { id := 1, flags := 2 }, iw := 0x00221820 }
  exdf_latch := { common := { pc := 16 }, result := 9, dest := 4 }
  dfwb_latch := { common := { pc := 20 }, result := 3, dest := 5 }

/-- A processor about to fetch the word `DE AD BE EF` stored at address 8 of the
instruction memory. -/
def fetchAtEight : rsp where
  regs := regsOf [(1, 5)]
  mem := memOf 0x1008 [0xDE, 0xAD, 0xBE, 0xEF]
  pipeline := { busyPipeline with
    ifrd_latch := { common := { pc := 4 }, pc := 8, iw := 0 } }

/-- A processor whose fetch program counter is `0x1000`, one past the
instruction window. -/
def pcPastWindow : rsp where
  regs := regsOf []
  mem := memOf 0x1000 []
  pipeline := { zeroPipeline with
    ifrd_latch := { common := { pc := 0 }, pc := 0x1000, iw := 0 } }

/-! ## Specification-side definitions for the fetch stage -/

/-- The big-endian interpretation of four bytes, in the spec's words:
`b0<<24 | b1<<16 | b2<<8 | b3`. -/
def be32 (b0 b1 b2 b3 : Nat) : Nat :=
  b0 <<< 24 ||| b1 <<< 16 ||| b2 <<< 8 ||| b3

/-- The instruction-memory window of the spec: memory offsets `0x1000` to
`0x1FFF`. -/
def inInstructionWindow (a : Nat) : Bool :=
  decide (0x1000 ≤ a) && decide (a ≤ 0x1FFF)

/-- The two-level bypass in the words of the claim, over the state at the start
of a cycle: zero for register 0, else the result of the `exdf` latch when it
targets `r`, else the result of the `dfwb` latch when it targets `r`, else the
register. -/
def bypass_operand (s : rsp) (r : Nat) : Nat :=
  if r = 0 then 0
  else if r = s.pipeline.exdf_latch.dest then s.pipeline.exdf_latch.result
  else if r = s.pipeline.dfwb_latch.dest then s.pipeline.dfwb_latch.result
  else s.regs r

/-- Every field of the four latches is zero. -/
def latchesZero (p : rsp_pipeline) : Bool :=
  decide (p = zeroPipeline)

/-! ## Basic facts -/

theorem setReg_same (regs : Nat → Nat) (i v : Nat) : setReg regs i v i = v := by
  simp [setReg]

theorem setReg_other (regs : Nat → Nat) (i v j : Nat) (h : j ≠ i) :
    setReg regs i v j = regs j := by
  simp [setReg, h]

theorem rsp_cycle_halted (E : Env) (s : rsp) (h : halted E s = true) :
    rsp_cycle E s = s := by
  simp [rsp_cycle, h]

theorem rsp_cycle_dispatches_halted (E : Env) (s : rsp) (h : halted E s = true) :
    rsp_cycle_dispatches E s = [] := by
  simp [rsp_cycle_dispatches, h]

theorem rsp_cycle_running (E : Env) (s : rsp) (h : halted E s = false) :
    rsp_cycle E s
      = rsp_if_stage (rsp_rd_stage E (rsp_ex_stage E (rsp_df_stage (rsp_wb_stage s)))) := by
  simp [rsp_cycle, h]

theorem rsp_cycle_dispatches_running (E : Env) (s : rsp) (h : halted E s = false) :
    rsp_cycle_dispatches E s = [rsp_ex_dispatch E (rsp_df_stage (rsp_wb_stage s))] := by
  simp [rsp_cycle_dispatches, h]

/-- A read of the register file after the install and the re-zeroing is a read
through the forwarding function. -/
theorem forwarded_read (regs : Nat → Nat) (l : rsp_dfwb_latch) (r : Nat) :
    setReg (setReg regs l.dest l.result) RSP_REGISTER_R0 0 r = read_operand regs l r := by
  unfold setReg read_operand RSP_REGISTER_R0
  by_cases h0 : r = 0
  · simp [h0]
  · by_cases hd : r = l.dest
    · simp [h0, hd]
    · have hd2 : ¬ (l.dest = r) := fun e => hd e.symm
      simp [h0, hd, hd2]

/-- The register file handed to the handler, slot by slot. -/
theorem rsp_ex_dispatch_regs (E : Env) (s : rsp) (r : Nat) :
    (rsp_ex_dispatch E s).state.regs r
      = if r = s.pipeline.dfwb_latch.dest then s.regs r
        else if r = 0 then 0 else s.regs r := by
  simp only [rsp_ex_dispatch, setReg, RSP_REGISTER_R0]
  split_ifs <;> simp_all

/-! ## Halt -/

/-- C1. While the halt bit of the status register is set, any number of calls to
`rsp_cycle` returns the processor unchanged (registers, memory and the four
latches), and no opcode handler is called. -/
theorem halt_freezes_state (E : Env) (s : rsp) (h : halted E s = true) (n : Nat) :
    rsp_cycles E n s = s ∧ rsp_cycles_dispatches E n s = [] := by
  induction n with
  | zero => exact ⟨rfl, rfl⟩
  | succ k ih =>
    simp only [rsp_cycles, rsp_cycles_dispatches, rsp_cycle_halted E s h,
      rsp_cycle_dispatches_halted E s h, List.nil_append]
    exact ih

/-- C1 at `haltedState`: three calls change nothing and call no handler. -/
theorem halt_freezes_state_witness :
    halted demoEnv haltedState = true ∧
      rsp_cycles demoEnv 3 haltedState = haltedState ∧
      rsp_cycles_dispatches demoEnv 3 haltedState = [] :=
  ⟨by decide, halt_freezes_state demoEnv haltedState (by decide) 3⟩

/-! ## Execute: operand reads and the forwarding install -/

/-- C2. The two operands that `rsp_ex_stage` passes to the handler are the values
of the forwarding function `read_operand` at the `rs` and `rt` fields of the
instruction word, over the register file and the `dfwb` latch at entry; no
assumption on the state. -/
theorem ex_operands_eq_read_operand (E : Env) (s : rsp) :
    (rsp_ex_dispatch E s).rs_reg
        = read_operand s.regs s.pipeline.dfwb_latch (E.GET_RS s.pipeline.rdex_latch.iw) ∧
    (rsp_ex_dispatch E s).rt_reg
        = read_operand s.regs s.pipeline.dfwb_latch (E.GET_RT s.pipeline.rdex_latch.iw) := by
  exact ⟨forwarded_read s.regs s.pipeline.dfwb_latch _,
    forwarded_read s.regs s.pipeline.dfwb_latch _⟩

/-! ## Writeback -/

/-- C5. After `rsp_wb_stage` register 0 is zero, the destination register of the
`dfwb` latch holds its result when the destination is not register 0, every other
register is unchanged, the latches and the memory are unchanged, and with
destination 0 and register 0 already zero the register file is unchanged. -/
theorem wb_postcondition (s : rsp) :
    (rsp_wb_stage s).regs 0 = 0 ∧
    (s.pipeline.dfwb_latch.dest ≠ 0 →
      (rsp_wb_stage s).regs s.pipeline.dfwb_latch.dest = s.pipeline.dfwb_latch.result) ∧
    (∀ r, r ≠ 0 → r ≠ s.pipeline.dfwb_latch.dest → (rsp_wb_stage s).regs r = s.regs r) ∧
    (rsp_wb_stage s).pipeline = s.pipeline ∧
    (rsp_wb_stage s).mem = s.mem ∧
    (s.pipeline.dfwb_latch.dest = 0 → s.regs 0 = 0 → (rsp_wb_stage s).regs = s.regs) := by
  refine ⟨?_, ?_, ?_, rfl, rfl, ?_⟩
  · simp [rsp_wb_stage, setReg, RSP_REGISTER_R0]
  · intro hd
    simp [rsp_wb_stage, setReg, RSP_REGISTER_R0, hd]
  · intro r h0 hd
    simp [rsp_wb_stage, setReg, RSP_REGISTER_R0, h0, hd]
  · intro hd h0
    funext r
    simp only [rsp_wb_stage, setReg, RSP_REGISTER_R0, hd]
    split_ifs <;> simp_all

/-! ## One running cycle -/

theorem demoEnv_writes_only_exdf : HandlersWriteOnlyExdf demoEnv := by
  intro id s iw a b
  simp only [demoEnv, demoTable]
  split_ifs <;> simp

theorem rsp_wb_stage_regs_zero (s : rsp) : (rsp_wb_stage s).regs 0 = 0 := by
  simp [rsp_wb_stage, setReg, RSP_REGISTER_R0]

/-- With register 0 zero at entry, the install and the restore leave the register
file as it was. -/
theorem rsp_ex_dispatch_regs_of_zero (E : Env) (s : rsp) (h : s.regs 0 = 0) :
    (rsp_ex_dispatch E s).state.regs = s.regs := by
  funext r
  rw [rsp_ex_dispatch_regs]
  split_ifs with h1 h2
  · rfl
  · rw [h2, h]
  · rfl

/-- The handler calls of a cycle are none or the one call of the execute stage. -/
theorem mem_rsp_cycle_dispatches (E : Env) (s : rsp) (d : Dispatch)
    (h : d ∈ rsp_cycle_dispatches E s) :
    d = rsp_ex_dispatch E (rsp_df_stage (rsp_wb_stage s)) := by
  unfold rsp_cycle_dispatches at h
  split at h
  · simp at h
  · simpa using h

/-- C3. The forwarding mutation of Execute is always undone. `rsp_ex_stage` is
entered only from `rsp_cycle`, after writeback and data fetch: for every processor
state at the start of a cycle, the register file at the moment the handler is
called is identical, in every slot, to the register file at entry to
`rsp_ex_stage`. This is so for every call that `rsp_cycle` makes, and at every
entry state whose register 0 is zero, as writeback leaves it. -/
theorem ex_restore_regs_in_cycle (E : Env) (s : rsp) :
    (rsp_ex_dispatch E (rsp_df_stage (rsp_wb_stage s))).state.regs
      = (rsp_df_stage (rsp_wb_stage s)).regs ∧
    (∀ d ∈ rsp_cycle_dispatches E s, d.state.regs = (rsp_df_stage (rsp_wb_stage s)).regs) ∧
    (∀ t : rsp, t.regs 0 = 0 → (rsp_ex_dispatch E t).state.regs = t.regs) := by
  have h := rsp_ex_dispatch_regs_of_zero E (rsp_df_stage (rsp_wb_stage s))
    (rsp_wb_stage_regs_zero s)
  refine ⟨h, fun d hd => ?_, fun t ht => rsp_ex_dispatch_regs_of_zero E t ht⟩
  rw [mem_rsp_cycle_dispatches E s d hd]
  exact h

/-- C3 at `runningState`: Execute is entered with the write of 9 to register 4
pending and a stale 0 in register 4; the handler receives the register file with
the 0 back in place, and register 5 as writeback left it. -/
theorem ex_restore_regs_in_cycle_witness :
    (rsp_df_stage (rsp_wb_stage runningState)).pipeline.dfwb_latch.dest = 4 ∧
    (rsp_df_stage (rsp_wb_stage runningState)).pipeline.dfwb_latch.result = 9 ∧
    (rsp_ex_dispatch demoEnv (rsp_df_stage (rsp_wb_stage runningState))).state.regs 4 = 0 ∧
    (rsp_ex_dispatch demoEnv (rsp_df_stage (rsp_wb_stage runningState))).state.regs 5 = 3 := by
  have h := (ex_restore_regs_in_cycle demoEnv runningState).1
  refine ⟨rfl, rfl, ?_, ?_⟩
  · rw [h]; decide
  · rw [h]; decide

/-- C4. Register 0 after the install and restore of Execute. `rsp_ex_stage` is
entered only from `rsp_cycle`, after writeback and data fetch: for every processor
state at the start of a cycle, whatever its registers hold and whatever the pending
destinations are, register 0 reads as zero at the moment the handler is called.
This is so for every call that `rsp_cycle` makes, and at every entry state whose
register 0 is zero, as writeback leaves it. -/
theorem ex_zero_register_in_cycle (E : Env) (s : rsp) :
    (rsp_ex_dispatch E (rsp_df_stage (rsp_wb_stage s))).state.regs 0 = 0 ∧
    (∀ d ∈ rsp_cycle_dispatches E s, d.state.regs 0 = 0) ∧
    (∀ t : rsp, t.regs 0 = 0 → (rsp_ex_dispatch E t).state.regs 0 = 0) := by
  have h : (rsp_ex_dispatch E (rsp_df_stage (rsp_wb_stage s))).state.regs 0 = 0 := by
    rw [rsp_ex_dispatch_regs_of_zero E (rsp_df_stage (rsp_wb_stage s))
      (rsp_wb_stage_regs_zero s)]
    exact rsp_wb_stage_regs_zero s
  refine ⟨h, fun d hd => ?_, fun t ht => ?_⟩
  · rw [mem_rsp_cycle_dispatches E s d hd]
    exact h
  · rw [rsp_ex_dispatch_regs_of_zero E t ht]
    exact ht

/-- C4 at `dirtyZeroPendingZero`: the cycle starts with 7 in register 0 and both
pending destinations 0; the one handler call of the cycle sees 0 in register 0. -/
theorem ex_zero_register_in_cycle_witness :
    dirtyZeroPendingZero.regs 0 = 7 ∧
    dirtyZeroPendingZero.pipeline.dfwb_latch.dest = 0 ∧
    dirtyZeroPendingZero.pipeline.exdf_latch.dest = 0 ∧
    ∃ d, rsp_cycle_dispatches demoEnv dirtyZeroPendingZero = [d] ∧ d.state.regs 0 = 0 := by
  refine ⟨by decide, rfl, rfl, _, rsp_cycle_dispatches_running demoEnv _ (by decide), ?_⟩
  exact (ex_zero_register_in_cycle demoEnv dirtyZeroPendingZero).1

/-- What the execute stage leaves behind when the handlers write only the
execute-output latch. -/
theorem rsp_ex_stage_frame (E : Env) (s : rsp) (hE : HandlersWriteOnlyExdf E) :
    (rsp_ex_stage E s).regs = (rsp_ex_dispatch E s).state.regs ∧
    (rsp_ex_stage E s).mem = s.mem ∧
    (rsp_ex_stage E s).pipeline.ifrd_latch = s.pipeline.ifrd_latch ∧
    (rsp_ex_stage E s).pipeline.rdex_latch = s.pipeline.rdex_latch ∧
    (rsp_ex_stage E s).pipeline.dfwb_latch = s.pipeline.dfwb_latch ∧
    (rsp_ex_stage E s).pipeline.exdf_latch.common = s.pipeline.rdex_latch.common := by
  obtain ⟨h1, h2, h3, h4, h5, h6⟩ :=
    hE (rsp_ex_dispatch E s).id (rsp_ex_dispatch E s).state (rsp_ex_dispatch E s).iw
      (rsp_ex_dispatch E s).rs_reg (rsp_ex_dispatch E s).rt_reg
  exact ⟨h1, h2, h3, h4, h5, h6⟩

/-- The state after one running cycle, field by field, when the handlers write
only the execute-output latch. -/
theorem rsp_cycle_fields (E : Env) (s : rsp) (hE : HandlersWriteOnlyExdf E)
    (hr : halted E s = false) :
    (rsp_cycle E s).regs = (rsp_wb_stage s).regs ∧
    (rsp_cycle E s).mem = s.mem ∧
    (rsp_cycle E s).pipeline.dfwb_latch
      = { common := s.pipeline.exdf_latch.common,
          result := s.pipeline.exdf_latch.result,
          dest := s.pipeline.exdf_latch.dest } ∧
    (rsp_cycle E s).pipeline.exdf_latch
      = (callHandler E (rsp_ex_dispatch E (rsp_df_stage (rsp_wb_stage s)))).pipeline.exdf_latch ∧
    (rsp_cycle E s).pipeline.exdf_latch.common = s.pipeline.rdex_latch.common ∧
    (rsp_cycle E s).pipeline.rdex_latch
      = { common := s.pipeline.ifrd_latch.common,
          opcode := E.rsp_decode_instruction s.pipeline.ifrd_latch.iw,
          iw := s.pipeline.ifrd_latch.iw } ∧
    (rsp_cycle E s).pipeline.ifrd_latch = (rsp_if_stage s).pipeline.ifrd_latch := by
  rw [rsp_cycle_running E s hr]
  obtain ⟨h1, h2, h3, h4, h5, h6⟩ := rsp_ex_stage_frame E (rsp_df_stage (rsp_wb_stage s)) hE
  refine ⟨?_, ?_, ?_, rfl, ?_, ?_, ?_⟩
  · show (rsp_ex_stage E (rsp_df_stage (rsp_wb_stage s))).regs = _
    rw [h1]
    exact rsp_ex_dispatch_regs_of_zero E _ (rsp_wb_stage_regs_zero s)
  · show (rsp_ex_stage E (rsp_df_stage (rsp_wb_stage s))).mem = _
    rw [h2]
    rfl
  · show (rsp_ex_stage E (rsp_df_stage (rsp_wb_stage s))).pipeline.dfwb_latch = _
    rw [h5]
    rfl
  · show (rsp_ex_stage E (rsp_df_stage (rsp_wb_stage s))).pipeline.exdf_latch.common = _
    rw [h6]
    rfl
  · show ({ common := _, opcode := _, iw := _ } : rsp_rdex_latch) = _
    rw [h3]
    rfl
  · show ({ common := _, pc := _, iw := _ } : rsp_ifrd_latch) = _
    simp only [rsp_if_stage, rsp_rd_stage, h3, h2]
    rfl

/-- C6. In a running cycle whose handlers write only the destination and result
of the execute-output latch, the five stages run once each in the order
writeback, data fetch, execute, decode, fetch, and each consumes the latch as it
was before the cycle: the register file is the old one with the old `dfwb` latch
committed and register 0 zeroed; the new `dfwb` latch is the old `exdf` latch; the
one handler call is for the old `rdex` latch's opcode and instruction word, with
`exdf.common` set to the old `rdex.common`; the new `rdex` latch is the old `ifrd`
latch decoded; the new `ifrd` latch is fetched at the old `ifrd.pc`. -/
theorem cycle_consumes_old_latches (E : Env) (s : rsp) (hE : HandlersWriteOnlyExdf E)
    (hr : halted E s = false) :
    rsp_cycle E s
      = rsp_if_stage (rsp_rd_stage E (rsp_ex_stage E (rsp_df_stage (rsp_wb_stage s)))) ∧
    (rsp_cycle E s).regs
      = setReg (setReg s.regs s.pipeline.dfwb_latch.dest s.pipeline.dfwb_latch.result) 0 0 ∧
    (rsp_cycle E s).pipeline.dfwb_latch
      = { common := s.pipeline.exdf_latch.common,
          result := s.pipeline.exdf_latch.result,
          dest := s.pipeline.exdf_latch.dest } ∧
    (∃ d, rsp_cycle_dispatches E s = [d] ∧
      d.id = s.pipeline.rdex_latch.opcode.id ∧
      d.iw = s.pipeline.rdex_latch.iw ∧
      d.state.pipeline.exdf_latch.common = s.pipeline.rdex_latch.common) ∧
    (rsp_cycle E s).pipeline.exdf_latch.common = s.pipeline.rdex_latch.common ∧
    (rsp_cycle E s).pipeline.rdex_latch
      = { common := s.pipeline.ifrd_latch.common,
          opcode := E.rsp_decode_instruction s.pipeline.ifrd_latch.iw,
          iw := s.pipeline.ifrd_latch.iw } ∧
    (rsp_cycle E s).pipeline.ifrd_latch
      = { common := { pc := s.pipeline.ifrd_latch.pc },
          pc := ((s.pipeline.ifrd_latch.pc + 4) % 2 ^ 32) &&& 0xFFC,
          iw := byteswap_32 (memcpy32 s.mem (0x1000 + s.pipeline.ifrd_latch.pc)) } := by
  obtain ⟨h1, _, h3, _, h5, h6, h7⟩ := rsp_cycle_fields E s hE hr
  refine ⟨rsp_cycle_running E s hr, ?_, h3, ?_, h5, h6, ?_⟩
  · rw [h1]; rfl
  · exact ⟨_, rsp_cycle_dispatches_running E s hr, rfl, rfl, rfl⟩
  · rw [h7]; rfl

/-- C6 at `runningState`: the latches and register 5 after one cycle. -/
theorem cycle_consumes_old_latches_witness :
    halted demoEnv runningState = false ∧
    (rsp_cycle demoEnv runningState).regs 5 = 3 ∧
    (rsp_cycle demoEnv runningState).pipeline.dfwb_latch
      = { common := { pc := 0xFFC }, result := 9, dest := 4 } ∧
    (rsp_cycle demoEnv runningState).pipeline.rdex_latch
      = { common := { pc := 4 }, opcode := { id := 1, flags := 0 }, iw := 0x00221820 } ∧
    (rsp_cycle demoEnv runningState).pipeline.ifrd_latch
      = { common := { pc := 8 }, pc := 12, iw := 0 } := by
  have h := cycle_consumes_old_latches demoEnv runningState demoEnv_writes_only_exdf
    (by decide)
  refine ⟨by decide, ?_, ?_, ?_, ?_⟩
  · rw [h.2.1]; decide
  · rw [h.2.2.1]; decide
  · rw [h.2.2.2.2.2.1]; decide
  · rw [h.2.2.2.2.2.2]; decide

/-! ## Forwarding -/

/-- The operands of the one handler call of a running cycle, over the state at
the start of the cycle: a read through the forwarding function of the register
file after writeback, with the old `exdf` latch as the pending write. -/
theorem rsp_cycle_operand (s : rsp) (r : Nat) :
    setReg (setReg (rsp_df_stage (rsp_wb_stage s)).regs
        (rsp_df_stage (rsp_wb_stage s)).pipeline.dfwb_latch.dest
        (rsp_df_stage (rsp_wb_stage s)).pipeline.dfwb_latch.result) RSP_REGISTER_R0 0 r
      = if r = 0 then 0
        else if r = s.pipeline.exdf_latch.dest then s.pipeline.exdf_latch.result
        else if r = s.pipeline.dfwb_latch.dest then s.pipeline.dfwb_latch.result
        else s.regs r := by
  simp only [rsp_df_stage, rsp_wb_stage, setReg, RSP_REGISTER_R0]
  split_ifs <;> rfl

/-- C7, as stated, fails: the instruction at writeback writes 5 to register 1,
the instruction at execute reads register 1 through `rs`, and the handler
receives 9, the result of the instruction in between, which also writes
register 1. -/
theorem forwarding_counterexample :
    halted demoEnv twoProducers = false ∧
    twoProducers.pipeline.dfwb_latch.dest = 1 ∧
    twoProducers.pipeline.dfwb_latch.result = 5 ∧
    demoEnv.GET_RS twoProducers.pipeline.rdex_latch.iw = 1 ∧
    (rsp_cycle_dispatches demoEnv twoProducers).map (fun d => d.rs_reg) = [9] := by
  decide

/-- C7, amended. In a running cycle where the `dfwb` latch at the start of the
cycle has destination `R`, not register 0, and result `V`, and the `exdf` latch
at the start of the cycle does not have destination `R`, the handler receives `V`
for each source field (`rs`, `rt`) of the old `rdex` instruction word that is
`R`. -/
theorem forwarding_from_writeback (E : Env) (s : rsp) (R V : Nat)
    (hr : halted E s = false) (hR : R ≠ 0)
    (hd : s.pipeline.dfwb_latch.dest = R) (hv : s.pipeline.dfwb_latch.result = V)
    (hx : s.pipeline.exdf_latch.dest ≠ R) :
    ∃ d, rsp_cycle_dispatches E s = [d] ∧
      (E.GET_RS s.pipeline.rdex_latch.iw = R → d.rs_reg = V) ∧
      (E.GET_RT s.pipeline.rdex_latch.iw = R → d.rt_reg = V) := by
  refine ⟨_, rsp_cycle_dispatches_running E s hr, ?_, ?_⟩
  · intro hs
    show setReg (setReg _ _ _) RSP_REGISTER_R0 0 (E.GET_RS s.pipeline.rdex_latch.iw) = V
    have hx2 : ¬ (R = s.pipeline.exdf_latch.dest) := fun e => hx e.symm
    rw [hs, rsp_cycle_operand, if_neg hR, if_neg hx2, if_pos hd.symm, hv]
  · intro hs
    show setReg (setReg _ _ _) RSP_REGISTER_R0 0 (E.GET_RT s.pipeline.rdex_latch.iw) = V
    have hx2 : ¬ (R = s.pipeline.exdf_latch.dest) := fun e => hx e.symm
    rw [hs, rsp_cycle_operand, if_neg hR, if_neg hx2, if_pos hd.symm, hv]

/-- C7, amended, at `oneProducer`: both operands are the pending 5, not the 3 in
the register file. -/
theorem forwarding_from_writeback_witness :
    halted demoEnv oneProducer = false ∧
    demoEnv.GET_RS oneProducer.pipeline.rdex_latch.iw = 1 ∧
    demoEnv.GET_RT oneProducer.pipeline.rdex_latch.iw = 1 ∧
    oneProducer.regs 1 = 3 ∧
    ∃ d, rsp_cycle_dispatches demoEnv oneProducer = [d] ∧ d.rs_reg = 5 ∧ d.rt_reg = 5 := by
  obtain ⟨d, h1, h2, h3⟩ := forwarding_from_writeback demoEnv oneProducer 1 5
    (by decide) (by decide) (by decide) (by decide) (by decide)
  exact ⟨by decide, by decide, by decide, by decide, d, h1, h2 (by decide), h3 (by decide)⟩

/-- What a running cycle leaves in the register file, the memory and the `exdf`
and `dfwb` latches is what the handler call left there: the two stages after
execute write the `rdex` and `ifrd` latches only. -/
theorem rsp_cycle_after_call (E : Env) (s : rsp) (hr : halted E s = false) :
    (rsp_cycle E s).regs
      = (callHandler E (rsp_ex_dispatch E (rsp_df_stage (rsp_wb_stage s)))).regs ∧
    (rsp_cycle E s).mem
      = (callHandler E (rsp_ex_dispatch E (rsp_df_stage (rsp_wb_stage s)))).mem ∧
    (rsp_cycle E s).pipeline.exdf_latch
      = (callHandler E (rsp_ex_dispatch E (rsp_df_stage (rsp_wb_stage s)))).pipeline.exdf_latch ∧
    (rsp_cycle E s).pipeline.dfwb_latch
      = (callHandler E (rsp_ex_dispatch E (rsp_df_stage (rsp_wb_stage s)))).pipeline.dfwb_latch := by
  rw [rsp_cycle_running E s hr]
  exact ⟨rfl, rfl, rfl, rfl⟩

/-- The register file handed to the handler of a cycle is the one writeback
left. -/
theorem rsp_cycle_dispatch_regs (E : Env) (s : rsp) :
    (rsp_ex_dispatch E (rsp_df_stage (rsp_wb_stage s))).state.regs = (rsp_wb_stage s).regs :=
  rsp_ex_dispatch_regs_of_zero E (rsp_df_stage (rsp_wb_stage s)) (rsp_wb_stage_regs_zero s)

/-- C8. Two instructions back to back over three running cycles from `s`. The
first is in the `rdex` latch of `s` and its handler, called in the first cycle,
leaves destination 4 and result `V` in the `exdf` latch. The second is in the
`rdex` latch after the first cycle. The instruction before the first, at writeback
in the second cycle, does not write register 4. The handlers may write memory and
the latches they own; what is asked of them is that the call for the second
instruction writes neither register 4 nor the destination and result of the `dfwb`
latch, and that the call of the third cycle does not write register 4. Then the
one handler call of the second cycle is for the second instruction and receives
`V` for each source field that is 4, register 4 still has its previous value at
the end of the second cycle, and it holds `V` at the end of the third, whose
writeback commits the first instruction. -/
theorem back_to_back_forwarding (E : Env) (s : rsp) (V : Nat)
    (h0 : halted E s = false)
    (h1 : halted E (rsp_cycle E s) = false)
    (h2 : halted E (rsp_cycle E (rsp_cycle E s)) = false)
    (hfirst :
      (callHandler E (rsp_ex_dispatch E (rsp_df_stage (rsp_wb_stage s)))).pipeline.exdf_latch.dest = 4
      ∧ (callHandler E (rsp_ex_dispatch E (rsp_df_stage (rsp_wb_stage s)))).pipeline.exdf_latch.result = V)
    (hprev : (rsp_cycle E s).pipeline.dfwb_latch.dest ≠ 4)
    (hsecond :
      (callHandler E (rsp_ex_dispatch E (rsp_df_stage (rsp_wb_stage (rsp_cycle E s))))).regs 4
        = (rsp_ex_dispatch E (rsp_df_stage (rsp_wb_stage (rsp_cycle E s)))).state.regs 4
      ∧ (callHandler E (rsp_ex_dispatch E (rsp_df_stage (rsp_wb_stage (rsp_cycle E s))))).pipeline.dfwb_latch.dest
        = (rsp_ex_dispatch E (rsp_df_stage (rsp_wb_stage (rsp_cycle E s)))).state.pipeline.dfwb_latch.dest
      ∧ (callHandler E (rsp_ex_dispatch E (rsp_df_stage (rsp_wb_stage (rsp_cycle E s))))).pipeline.dfwb_latch.result
        = (rsp_ex_dispatch E (rsp_df_stage (rsp_wb_stage (rsp_cycle E s)))).state.pipeline.dfwb_latch.result)
    (hthird :
      (callHandler E (rsp_ex_dispatch E (rsp_df_stage (rsp_wb_stage
          (rsp_cycle E (rsp_cycle E s)))))).regs 4
        = (rsp_ex_dispatch E (rsp_df_stage (rsp_wb_stage
          (rsp_cycle E (rsp_cycle E s))))).state.regs 4) :
    (∃ d, rsp_cycle_dispatches E (rsp_cycle E s) = [d] ∧
      d.id = (rsp_cycle E s).pipeline.rdex_latch.opcode.id ∧
      d.iw = (rsp_cycle E s).pipeline.rdex_latch.iw ∧
      (E.GET_RS (rsp_cycle E s).pipeline.rdex_latch.iw = 4 → d.rs_reg = V) ∧
      (E.GET_RT (rsp_cycle E s).pipeline.rdex_latch.iw = 4 → d.rt_reg = V)) ∧
    (rsp_cycles E 2 s).regs 4 = (rsp_cycle E s).regs 4 ∧
    (rsp_cycles E 3 s).regs 4 = V := by
  obtain ⟨_, _, a3, _⟩ := rsp_cycle_after_call E s h0
  obtain ⟨b1, _, _, b4⟩ := rsp_cycle_after_call E (rsp_cycle E s) h1
  obtain ⟨c1, _, _, _⟩ := rsp_cycle_after_call E (rsp_cycle E (rsp_cycle E s)) h2
  have hd : (rsp_cycle E s).pipeline.exdf_latch.dest = 4 := by rw [a3]; exact hfirst.1
  have hv : (rsp_cycle E s).pipeline.exdf_latch.result = V := by rw [a3]; exact hfirst.2
  have hop : ∀ r, r = 4 →
      setReg (setReg (rsp_df_stage (rsp_wb_stage (rsp_cycle E s))).regs
        (rsp_df_stage (rsp_wb_stage (rsp_cycle E s))).pipeline.dfwb_latch.dest
        (rsp_df_stage (rsp_wb_stage (rsp_cycle E s))).pipeline.dfwb_latch.result)
        RSP_REGISTER_R0 0 r = V := by
    intro r hr4
    rw [rsp_cycle_operand, hd, hv, hr4]
    simp
  have hd2 : (rsp_cycle E (rsp_cycle E s)).pipeline.dfwb_latch.dest = 4 := by
    rw [b4, hsecond.2.1]; exact hd
  have hv2 : (rsp_cycle E (rsp_cycle E s)).pipeline.dfwb_latch.result = V := by
    rw [b4, hsecond.2.2]; exact hv
  refine ⟨⟨_, rsp_cycle_dispatches_running E _ h1, rfl, rfl, fun hs => hop _ hs,
    fun hs => hop _ hs⟩, ?_, ?_⟩
  · show (rsp_cycle E (rsp_cycle E s)).regs 4 = _
    rw [b1, hsecond.1, rsp_cycle_dispatch_regs]
    have hne : ¬ (4 = (rsp_cycle E s).pipeline.dfwb_latch.dest) := fun e => hprev e.symm
    simp [rsp_wb_stage, setReg, RSP_REGISTER_R0, hne]
  · show (rsp_cycle E (rsp_cycle E (rsp_cycle E s))).regs 4 = _
    rw [c1, hthird, rsp_cycle_dispatch_regs]
    simp [rsp_wb_stage, setReg, RSP_REGISTER_R0, hd2, hv2]

/-- C8 at `addThenStore`, with a store as the second instruction: `SW r4, 0(r0)`
receives 12 as its `rt` operand and writes it to memory while register 4 still
holds 100, and register 4 holds 12 one cycle later. -/
theorem back_to_back_forwarding_witness :
    storeEnv.GET_RT (rsp_cycle storeEnv addThenStore).pipeline.rdex_latch.iw = 4 ∧
    addThenStore.regs 4 = 100 ∧
    (∃ d, rsp_cycle_dispatches storeEnv (rsp_cycle storeEnv addThenStore) = [d] ∧
      d.id = 2 ∧ d.rt_reg = 12) ∧
    (rsp_cycles storeEnv 2 addThenStore).mem 3 = 12 ∧
    addThenStore.mem 3 = 0 ∧
    (rsp_cycles storeEnv 2 addThenStore).regs 4 = 100 ∧
    (rsp_cycles storeEnv 3 addThenStore).regs 4 = 12 := by
  obtain ⟨⟨d, hd, hid, _, _, hrt⟩, hkeep, hcommit⟩ :=
    back_to_back_forwarding storeEnv addThenStore 12
      (by decide) (by decide) (by decide) (by decide) (by decide) (by decide) (by decide)
  refine ⟨by decide, by decide, ⟨d, hd, ?_, hrt (by decide)⟩, by decide, by decide, ?_, hcommit⟩
  · rw [hid]; decide
  · rw [hkeep]; decide

/-! ## Latency -/

/-- The register file after a running cycle is the old one with the old `dfwb`
latch committed. -/
theorem rsp_cycle_regs (E : Env) (s : rsp) (hE : HandlersWriteOnlyExdf E)
    (hr : halted E s = false) :
    (rsp_cycle E s).regs
      = setReg (setReg s.regs s.pipeline.dfwb_latch.dest s.pipeline.dfwb_latch.result) 0 0 := by
  rw [(rsp_cycle_fields E s hE hr).1]; rfl

/-- The `dfwb` latch after two running cycles holds what the handler called in
the first of them left in the `exdf` latch. -/
theorem rsp_cycle_cycle_dfwb (E : Env) (s : rsp) (hE : HandlersWriteOnlyExdf E)
    (h0 : halted E s = false) (h1 : halted E (rsp_cycle E s) = false) :
    (rsp_cycle E (rsp_cycle E s)).pipeline.dfwb_latch.dest
      = (callHandler E (rsp_ex_dispatch E (rsp_df_stage (rsp_wb_stage s)))).pipeline.exdf_latch.dest ∧
    (rsp_cycle E (rsp_cycle E s)).pipeline.dfwb_latch.result
      = (callHandler E (rsp_ex_dispatch E (rsp_df_stage (rsp_wb_stage s)))).pipeline.exdf_latch.result := by
  obtain ⟨_, _, _, a4, _, _, _⟩ := rsp_cycle_fields E s hE h0
  obtain ⟨_, _, b3, _, _, _, _⟩ := rsp_cycle_fields E (rsp_cycle E s) hE h1
  rw [b3, a4]
  exact ⟨rfl, rfl⟩

/-- C9. Five cycles from fetch to commit. General part: over five running cycles
with handlers that write only the execute-output latch, the word fetched in the
first cycle is the instruction word of the handler call of the third cycle, and
the destination and result this call leaves in the `exdf` latch are what the
writeback of the fifth cycle commits; the writebacks of the first four cycles
commit the old `dfwb` latch, the old `exdf` latch, and the outputs of the handler
calls of the first and second cycle, which are for the instruction words already
in the `rdex` and `ifrd` latches. Scenario: from zero latches with `r1 = 5`,
`r2 = 7` and `ADD r3, r1, r2` at address 0, register 3 is 0 after four cycles and
12 after five, and register 0 is 0. -/
theorem pipeline_latency_five :
    (∀ (E : Env) (s : rsp), HandlersWriteOnlyExdf E →
      (∀ k, k < 5 → halted E (rsp_cycles E k s) = false) →
      ∃ d1 d2 d3, rsp_cycles_dispatches E 3 s = [d1, d2, d3] ∧
        d3.iw = byteswap_32 (memcpy32 s.mem (0x1000 + s.pipeline.ifrd_latch.pc)) ∧
        d3.id = (E.rsp_decode_instruction d3.iw).id ∧
        (rsp_cycles E 5 s).regs
          = setReg (setReg (rsp_cycles E 4 s).regs
              (callHandler E d3).pipeline.exdf_latch.dest
              (callHandler E d3).pipeline.exdf_latch.result) 0 0 ∧
        d1.iw = s.pipeline.rdex_latch.iw ∧
        d2.iw = s.pipeline.ifrd_latch.iw ∧
        (rsp_cycles E 4 s).regs
          = setReg (setReg (rsp_cycles E 3 s).regs
              (callHandler E d2).pipeline.exdf_latch.dest
              (callHandler E d2).pipeline.exdf_latch.result) 0 0 ∧
        (rsp_cycles E 3 s).regs
          = setReg (setReg (rsp_cycles E 2 s).regs
              (callHandler E d1).pipeline.exdf_latch.dest
              (callHandler E d1).pipeline.exdf_latch.result) 0 0 ∧
        (rsp_cycles E 2 s).regs
          = setReg (setReg (rsp_cycles E 1 s).regs
              s.pipeline.exdf_latch.dest s.pipeline.exdf_latch.result) 0 0 ∧
        (rsp_cycles E 1 s).regs
          = setReg (setReg s.regs
              s.pipeline.dfwb_latch.dest s.pipeline.dfwb_latch.result) 0 0) ∧
    (latencyScenario.pipeline = zeroPipeline ∧
      halted demoEnv latencyScenario = false ∧
      (rsp_cycles demoEnv 4 latencyScenario).regs 3 = 0 ∧
      (rsp_cycles demoEnv 5 latencyScenario).regs 3 = 12 ∧
      (rsp_cycles demoEnv 5 latencyScenario).regs 0 = 0) := by
  refine ⟨?_, ⟨rfl, by decide, by decide, by decide, by decide⟩⟩
  intro E s hE hrun
  have h0 : halted E s = false := hrun 0 (by omega)
  have h1 : halted E (rsp_cycle E s) = false := hrun 1 (by omega)
  have h2 : halted E (rsp_cycle E (rsp_cycle E s)) = false := hrun 2 (by omega)
  have h3 : halted E (rsp_cycle E (rsp_cycle E (rsp_cycle E s))) = false := hrun 3 (by omega)
  have h4 : halted E (rsp_cycle E (rsp_cycle E (rsp_cycle E (rsp_cycle E s)))) = false :=
    hrun 4 (by omega)
  obtain ⟨_, a2, a3, _, _, a6, a7⟩ := rsp_cycle_fields E s hE h0
  obtain ⟨_, _, _, _, _, b6, _⟩ := rsp_cycle_fields E (rsp_cycle E s) hE h1
  have hiw3 : (rsp_cycle E (rsp_cycle E s)).pipeline.rdex_latch.iw
      = byteswap_32 (memcpy32 s.mem (0x1000 + s.pipeline.ifrd_latch.pc)) := by
    rw [b6, a7]; rfl
  have hid3 : (rsp_cycle E (rsp_cycle E s)).pipeline.rdex_latch.opcode
      = E.rsp_decode_instruction (rsp_cycle E (rsp_cycle E s)).pipeline.rdex_latch.iw := by
    rw [b6]
  have hiw2 : (rsp_cycle E s).pipeline.rdex_latch.iw = s.pipeline.ifrd_latch.iw := by rw [a6]
  refine ⟨rsp_ex_dispatch E (rsp_df_stage (rsp_wb_stage s)),
    rsp_ex_dispatch E (rsp_df_stage (rsp_wb_stage (rsp_cycle E s))),
    rsp_ex_dispatch E (rsp_df_stage (rsp_wb_stage (rsp_cycle E (rsp_cycle E s)))),
    ?_, hiw3, ?_, ?_, rfl, hiw2, ?_, ?_, ?_, ?_⟩
  · simp only [rsp_cycles_dispatches, rsp_cycle_dispatches_running E _ h0,
      rsp_cycle_dispatches_running E _ h1, rsp_cycle_dispatches_running E _ h2]
    rfl
  · show (rsp_cycle E (rsp_cycle E s)).pipeline.rdex_latch.opcode.id
      = (E.rsp_decode_instruction (rsp_cycle E (rsp_cycle E s)).pipeline.rdex_latch.iw).id
    rw [← hid3]
  · show (rsp_cycle E (rsp_cycle E (rsp_cycle E (rsp_cycle E (rsp_cycle E s))))).regs = _
    rw [rsp_cycle_regs E _ hE h4,
      (rsp_cycle_cycle_dfwb E (rsp_cycle E (rsp_cycle E s)) hE h2 h3).1,
      (rsp_cycle_cycle_dfwb E (rsp_cycle E (rsp_cycle E s)) hE h2 h3).2]
    rfl
  · show (rsp_cycle E (rsp_cycle E (rsp_cycle E (rsp_cycle E s)))).regs = _
    rw [rsp_cycle_regs E _ hE h3,
      (rsp_cycle_cycle_dfwb E (rsp_cycle E s) hE h1 h2).1,
      (rsp_cycle_cycle_dfwb E (rsp_cycle E s) hE h1 h2).2]
    rfl
  · show (rsp_cycle E (rsp_cycle E (rsp_cycle E s))).regs = _
    rw [rsp_cycle_regs E _ hE h2,
      (rsp_cycle_cycle_dfwb E s hE h0 h1).1,
      (rsp_cycle_cycle_dfwb E s hE h0 h1).2]
    rfl
  · show (rsp_cycle E (rsp_cycle E s)).regs = _
    rw [rsp_cycle_regs E _ hE h1, a3]
    rfl
  · exact rsp_cycle_regs E s hE h0

/-- C9 at `latencyScenario`: the third handler call is the `ADD` fetched in the
first cycle, with operands 5 and 7, destination 3 and result 12. -/
theorem pipeline_latency_five_witness :
    (∀ k, k < 5 → halted demoEnv (rsp_cycles demoEnv k latencyScenario) = false) ∧
    ∃ d1 d2 d3, rsp_cycles_dispatches demoEnv 3 latencyScenario = [d1, d2, d3] ∧
      d3.iw = 0x00221820 ∧ d3.id = 1 ∧ d3.rs_reg = 5 ∧ d3.rt_reg = 7 ∧
      (callHandler demoEnv d3).pipeline.exdf_latch.dest = 3 ∧
      (callHandler demoEnv d3).pipeline.exdf_latch.result = 12 := by
  have hrun : ∀ k, k < 5 → halted demoEnv (rsp_cycles demoEnv k latencyScenario) = false := by
    decide
  obtain ⟨d1, d2, d3, hd, _⟩ :=
    pipeline_latency_five.1 demoEnv latencyScenario demoEnv_writes_only_exdf hrun
  have e : rsp_cycles_dispatches demoEnv 3 latencyScenario
      = [rsp_ex_dispatch demoEnv (rsp_df_stage (rsp_wb_stage latencyScenario)),
         rsp_ex_dispatch demoEnv (rsp_df_stage (rsp_wb_stage (rsp_cycle demoEnv latencyScenario))),
         rsp_ex_dispatch demoEnv (rsp_df_stage (rsp_wb_stage
           (rsp_cycle demoEnv (rsp_cycle demoEnv latencyScenario))))] := rfl
  rw [e] at hd
  injection hd with hd1 hd
  injection hd with hd2 hd
  injection hd with hd3 _
  subst hd1 hd2 hd3
  exact ⟨hrun, _, _, _, e, by decide, by decide, by decide, by decide, by decide, by decide⟩

/-! ## Program counter -/

/-- The mask `0xFFC` keeps bits 2 to 11. -/
theorem and_0xFFC (x : Nat) : x &&& 0xFFC = 4 * (x / 4 % 1024) := by
  apply Nat.eq_of_testBit_eq
  intro i
  have e1 : (0xFFC : Nat) = 2 ^ 2 * (2 ^ 10 - 1) := by norm_num
  have e2 : (4 : Nat) * (x / 4 % 1024) = 2 ^ 2 * (x / 2 ^ 2 % 2 ^ 10) := by norm_num
  rw [e2, Nat.testBit_and, e1, Nat.testBit_mul_pow_two, Nat.testBit_mul_pow_two,
    Nat.testBit_two_pow_sub_one, Nat.testBit_mod_two_pow, ← Nat.shiftRight_eq_div_pow,
    Nat.testBit_shiftRight]
  by_cases h : 2 ≤ i
  · have : 2 + (i - 2) = i := by omega
    simp [h, this, Bool.and_comm]
  · simp [h]

/-- The next program counter written by the fetch stage. -/
theorem rsp_if_stage_pc (s : rsp) :
    (rsp_if_stage s).pipeline.ifrd_latch.pc
      = 4 * ((s.pipeline.ifrd_latch.pc + 4) % 2 ^ 32 / 4 % 1024) := by
  show ((s.pipeline.ifrd_latch.pc + 4) % 2 ^ 32) &&& 0xFFC = _
  rw [and_0xFFC]

/-- C10. For a fetch address `A` that is a multiple of 4, the next program counter
written by `rsp_if_stage` is `(A + 4) mod 0x1000` and is a multiple of 4; for
`A = 0xFFC` it is 0. -/
theorem pc_wraparound (s : rsp) (h : s.pipeline.ifrd_latch.pc % 4 = 0) :
    (rsp_if_stage s).pipeline.ifrd_latch.pc = (s.pipeline.ifrd_latch.pc + 4) % 0x1000 ∧
    (rsp_if_stage s).pipeline.ifrd_latch.pc % 4 = 0 ∧
    (s.pipeline.ifrd_latch.pc = 0xFFC → (rsp_if_stage s).pipeline.ifrd_latch.pc = 0) := by
  rw [rsp_if_stage_pc]
  omega

/-- C10 at `topOfWindow`: after a fetch at `0xFFC` the next fetch address is 0. -/
theorem pc_wraparound_witness :
    topOfWindow.pipeline.ifrd_latch.pc = 0xFFC ∧
    (rsp_if_stage topOfWindow).pipeline.ifrd_latch.pc = 0 :=
  ⟨rfl, (pc_wraparound topOfWindow (by decide)).2.2 rfl⟩

/-! ## Initialization -/

/-- C11 fails on the code. `rsp_pipeline_init` has an empty body: a pipeline
whose latch fields are all non-zero is returned as it is, with no field zeroed. -/
theorem pipeline_init_keeps_latches :
    rsp_pipeline_init busyPipeline = busyPipeline ∧
    latchesZero (rsp_pipeline_init busyPipeline) = false ∧
    (rsp_pipeline_init busyPipeline).ifrd_latch.pc = 8 ∧
    (rsp_pipeline_init busyPipeline).dfwb_latch.dest = 5 := by
  decide

/-! ## Instruction fetch -/

/-- A shifted byte and a smaller number have no bit in common. -/
theorem or_eq_add_of_lt (i a b : Nat) (h : b < 2 ^ i) : a <<< i ||| b = a * 2 ^ i + b := by
  rw [Nat.shiftLeft_eq, Nat.mul_comm]
  exact (Nat.mul_add_lt_is_or h a).symm

/-- The big-endian word of four bytes as a sum. -/
theorem be32_eq_sum (b0 b1 b2 b3 : Nat) (h1 : b1 < 256) (h2 : b2 < 256) (h3 : b3 < 256) :
    be32 b0 b1 b2 b3 = b0 * 2 ^ 24 + b1 * 2 ^ 16 + b2 * 2 ^ 8 + b3 := by
  unfold be32
  have e1 : b0 <<< 24 ||| b1 <<< 16 = (b0 * 2 ^ 8 + b1) <<< 16 := by
    rw [Nat.shiftLeft_eq b1, or_eq_add_of_lt 24 b0 _ (by omega), Nat.shiftLeft_eq]
    omega
  have e2 : (b0 * 2 ^ 8 + b1) <<< 16 ||| b2 <<< 8 = ((b0 * 2 ^ 8 + b1) * 2 ^ 8 + b2) <<< 8 := by
    rw [Nat.shiftLeft_eq b2, or_eq_add_of_lt 16 _ _ (by omega), Nat.shiftLeft_eq]
    omega
  rw [e1, e2, or_eq_add_of_lt 8 _ _ (by omega)]
  omega

/-- The byte swap of the little-endian load is the big-endian word. -/
theorem byteswap_32_memcpy32 (mem : Nat → Nat) (a : Nat) :
    byteswap_32 (memcpy32 mem a)
      = be32 (mem a % 256) (mem (a + 1) % 256) (mem (a + 2) % 256) (mem (a + 3) % 256) := by
  rw [be32_eq_sum _ _ _ _ (Nat.mod_lt _ (by norm_num)) (Nat.mod_lt _ (by norm_num))
    (Nat.mod_lt _ (by norm_num))]
  unfold byteswap_32 memcpy32
  omega

/-- The load depends on the memory only at the addresses of its footprint. -/
theorem memcpy32_congr (m1 m2 : Nat → Nat) (a : Nat)
    (h : ∀ x ∈ memcpy32_reads a, m1 x = m2 x) : memcpy32 m1 a = memcpy32 m2 a := by
  unfold memcpy32
  rw [h a (by simp [memcpy32_reads]), h (a + 1) (by simp [memcpy32_reads]),
    h (a + 2) (by simp [memcpy32_reads]), h (a + 3) (by simp [memcpy32_reads])]

/-- C12. For a fetch program counter `p` inside the instruction window, after
`rsp_if_stage` the instruction word of the latch is the big-endian word of the
four memory bytes at offsets `0x1000 + p` to `0x1000 + p + 3`, the latch's
`common.pc` is `p`, and the registers, the memory and the other three latches are
unchanged. -/
theorem if_stage_result (s : rsp) (hp : s.pipeline.ifrd_latch.pc < 0x1000) :
    (rsp_if_stage s).pipeline.ifrd_latch.iw
      = be32 (s.mem (0x1000 + s.pipeline.ifrd_latch.pc) % 256)
          (s.mem (0x1000 + s.pipeline.ifrd_latch.pc + 1) % 256)
          (s.mem (0x1000 + s.pipeline.ifrd_latch.pc + 2) % 256)
          (s.mem (0x1000 + s.pipeline.ifrd_latch.pc + 3) % 256) ∧
    (rsp_if_stage s).pipeline.ifrd_latch.common.pc = s.pipeline.ifrd_latch.pc ∧
    (rsp_if_stage s).regs = s.regs ∧
    (rsp_if_stage s).mem = s.mem ∧
    (rsp_if_stage s).pipeline.rdex_latch = s.pipeline.rdex_latch ∧
    (rsp_if_stage s).pipeline.exdf_latch = s.pipeline.exdf_latch ∧
    (rsp_if_stage s).pipeline.dfwb_latch = s.pipeline.dfwb_latch := by
  have _ := hp
  exact ⟨byteswap_32_memcpy32 s.mem _, rfl, rfl, rfl, rfl, rfl, rfl⟩

/-- C12 at `fetchAtEight`: the bytes `DE AD BE EF` at address 8 are fetched as
`0xDEADBEEF`. -/
theorem if_stage_result_witness :
    fetchAtEight.pipeline.ifrd_latch.pc = 8 ∧
    (rsp_if_stage fetchAtEight).pipeline.ifrd_latch.iw = 0xDEADBEEF ∧
    (rsp_if_stage fetchAtEight).pipeline.ifrd_latch.common.pc = 8 := by
  obtain ⟨h1, h2, _⟩ := if_stage_result fetchAtEight (by decide)
  refine ⟨rfl, ?_, h2⟩
  rw [h1]
  decide

/-- C13, as stated, fails: with the fetch program counter at `0x1000` the four
bytes read are at offsets `0x2000` to `0x2003`, none of them in the instruction
window. -/
theorem if_stage_reads_counterexample :
    rsp_if_stage_reads pcPastWindow = [0x2000, 0x2001, 0x2002, 0x2003] ∧
    ¬ (∀ a ∈ rsp_if_stage_reads pcPastWindow, inInstructionWindow a = true) := by
  decide

/-- C13, amended. The four bytes that `rsp_if_stage` reads lie wholly inside the
instruction window exactly when the fetch program counter on entry is at most
`0xFFC`; this holds for every program counter that is a multiple of 4 below
`0x1000`, and for every program counter that `rsp_if_stage` itself has written. -/
theorem if_stage_reads_in_window (s : rsp) :
    ((∀ a ∈ rsp_if_stage_reads s, inInstructionWindow a = true)
      ↔ s.pipeline.ifrd_latch.pc ≤ 0xFFC) ∧
    (s.pipeline.ifrd_latch.pc % 4 = 0 → s.pipeline.ifrd_latch.pc < 0x1000 →
      ∀ a ∈ rsp_if_stage_reads s, inInstructionWindow a = true) ∧
    (∀ a ∈ rsp_if_stage_reads (rsp_if_stage s), inInstructionWindow a = true) := by
  have key : ∀ t : rsp, (∀ a ∈ rsp_if_stage_reads t, inInstructionWindow a = true)
      ↔ t.pipeline.ifrd_latch.pc ≤ 0xFFC := by
    intro t
    simp only [rsp_if_stage_reads, memcpy32_reads, inInstructionWindow, List.mem_cons,
      List.mem_singleton, List.not_mem_nil, or_false, forall_eq_or_imp, forall_eq,
      Bool.and_eq_true, decide_eq_true_eq]
    omega
  refine ⟨key s, fun h4 hlt => (key s).2 (by omega), (key _).2 ?_⟩
  rw [rsp_if_stage_pc]
  omega

/-! ## Data fetch -/

/-- C14. After `rsp_df_stage` the `dfwb` latch has the `common`, `dest` and
`result` that the `exdf` latch had at entry, and the register file, the memory
and the `ifrd`, `rdex` and `exdf` latches are unchanged. -/
theorem df_stage_pass_through (s : rsp) :
    (rsp_df_stage s).pipeline.dfwb_latch.common = s.pipeline.exdf_latch.common ∧
    (rsp_df_stage s).pipeline.dfwb_latch.dest = s.pipeline.exdf_latch.dest ∧
    (rsp_df_stage s).pipeline.dfwb_latch.result = s.pipeline.exdf_latch.result ∧
    (rsp_df_stage s).regs = s.regs ∧
    (rsp_df_stage s).mem = s.mem ∧
    (rsp_df_stage s).pipeline.ifrd_latch = s.pipeline.ifrd_latch ∧
    (rsp_df_stage s).pipeline.rdex_latch = s.pipeline.rdex_latch ∧
    (rsp_df_stage s).pipeline.exdf_latch = s.pipeline.exdf_latch :=
  ⟨rfl, rfl, rfl, rfl, rfl, rfl, rfl, rfl⟩

/-! ## Register 0 at cycle boundaries -/

theorem rsp_cycles_succ_last (E : Env) (n : Nat) (s : rsp) :
    rsp_cycles E (n + 1) s = rsp_cycle E (rsp_cycles E n s) := by
  induction n generalizing s with
  | zero => rfl
  | succ k ih =>
    show rsp_cycles E (k + 1) (rsp_cycle E s) = _
    rw [ih]
    rfl

/-- After a running cycle whose handler leaves the register file alone, register
0 is zero. -/
theorem rsp_cycle_regs_zero (E : Env) (s : rsp) (hr : halted E s = false)
    (hk : (callHandler E (rsp_ex_dispatch E (rsp_df_stage (rsp_wb_stage s)))).regs
      = (rsp_ex_dispatch E (rsp_df_stage (rsp_wb_stage s))).state.regs) :
    (rsp_cycle E s).regs 0 = 0 := by
  rw [rsp_cycle_running E s hr]
  show (callHandler E (rsp_ex_dispatch E (rsp_df_stage (rsp_wb_stage s)))).regs 0 = 0
  rw [hk, rsp_ex_dispatch_regs_of_zero E (rsp_df_stage (rsp_wb_stage s))
    (rsp_wb_stage_regs_zero s)]
  exact rsp_wb_stage_regs_zero s

/-- C15. From any processor state, after one or more cycles, each of them running
and with a handler call that does not write the register file, register 0 reads
as zero. -/
theorem zero_register_cycle_boundary (E : Env) (s : rsp) (n : Nat) (hn : 0 < n)
    (h : ∀ k, k < n →
      halted E (rsp_cycles E k s) = false ∧
      (callHandler E (rsp_ex_dispatch E (rsp_df_stage (rsp_wb_stage (rsp_cycles E k s))))).regs
        = (rsp_ex_dispatch E (rsp_df_stage (rsp_wb_stage (rsp_cycles E k s)))).state.regs) :
    (rsp_cycles E n s).regs 0 = 0 := by
  obtain ⟨m, rfl⟩ : ∃ m, n = m + 1 := ⟨n - 1, by omega⟩
  rw [rsp_cycles_succ_last]
  exact rsp_cycle_regs_zero E _ (h m (by omega)).1 (h m (by omega)).2

/-- C15 at `dirtyZeroPendingZero`: register 0 holds 7 and both pending
destinations are 0; after one cycle and after two cycles it reads 0. -/
theorem zero_register_cycle_boundary_witness :
    dirtyZeroPendingZero.regs 0 = 7 ∧
    dirtyZeroPendingZero.pipeline.dfwb_latch.dest = 0 ∧
    dirtyZeroPendingZero.pipeline.exdf_latch.dest = 0 ∧
    (rsp_cycles demoEnv 1 dirtyZeroPendingZero).regs 0 = 0 ∧
    (rsp_cycles demoEnv 2 dirtyZeroPendingZero).regs 0 = 0 := by
  have hrun : ∀ k, k < 2 → halted demoEnv (rsp_cycles demoEnv k dirtyZeroPendingZero) = false := by
    decide
  refine ⟨by decide, rfl, rfl, ?_, ?_⟩
  · exact zero_register_cycle_boundary demoEnv dirtyZeroPendingZero 1 (by decide)
      (fun k hk => ⟨hrun k (by omega), (demoEnv_writes_only_exdf _ _ _ _ _).1⟩)
  · exact zero_register_cycle_boundary demoEnv dirtyZeroPendingZero 2 (by decide)
      (fun k hk => ⟨hrun k hk, (demoEnv_writes_only_exdf _ _ _ _ _).1⟩)

/-! ## Fetch address -/

/-- C16. For every program counter on entry, aligned or not, inside the window or
not, the next program counter written by `rsp_if_stage` is a multiple of 4 and less
than `0x1000`; so an aligned program counter inside the window stays one, and from
`0xFFFFFFFC`, where `pc + 4` overflows 32 bits, the next program counter is 0. -/
theorem if_stage_pc_invariant (s : rsp) :
    (rsp_if_stage s).pipeline.ifrd_latch.pc % 4 = 0 ∧
    (rsp_if_stage s).pipeline.ifrd_latch.pc < 0x1000 ∧
    (s.pipeline.ifrd_latch.pc % 4 = 0 ∧ s.pipeline.ifrd_latch.pc < 0x1000 →
      (rsp_if_stage s).pipeline.ifrd_latch.pc % 4 = 0 ∧
      (rsp_if_stage s).pipeline.ifrd_latch.pc < 0x1000) ∧
    (s.pipeline.ifrd_latch.pc = 0xFFFFFFFC → (rsp_if_stage s).pipeline.ifrd_latch.pc = 0) := by
  rw [rsp_if_stage_pc]
  omega

/-! ## Default destination -/

/-- A writeback with destination 0 into a register file whose register 0 is zero
changes no register. -/
theorem rsp_wb_stage_regs_of_zero (t : rsp) (hd : t.pipeline.dfwb_latch.dest = 0)
    (h0 : t.regs 0 = 0) : (rsp_wb_stage t).regs = t.regs := by
  funext r
  simp only [rsp_wb_stage, setReg, RSP_REGISTER_R0, hd]
  split_ifs with h
  · rw [h, h0]
  · rfl

/-- C17. In every state `rsp_ex_stage` has set the destination of the `exdf` latch
to register 0 and its `common` to that of the `rdex` latch when the handler is
called; when the handler writes nothing the latch leaves execute, and then data
fetch, with destination 0; a writeback of destination 0 with register 0 already
zero changes no register. At cycle level: over three running cycles with handlers
that write only the `exdf` latch, if the handler called in the first cycle writes
nothing, the `exdf` latch has destination 0 after the first cycle, the `dfwb` latch
has destination 0 after the second, and the third cycle changes no register. -/
theorem default_destination_zero :
    (∀ (E : Env) (s : rsp),
      (rsp_ex_dispatch E s).state.pipeline.exdf_latch.dest = 0 ∧
      (rsp_ex_dispatch E s).state.pipeline.exdf_latch.common = s.pipeline.rdex_latch.common ∧
      (callHandler E (rsp_ex_dispatch E s) = (rsp_ex_dispatch E s).state →
        (rsp_ex_stage E s).pipeline.exdf_latch.dest = 0 ∧
        (rsp_df_stage (rsp_ex_stage E s)).pipeline.dfwb_latch.dest = 0)) ∧
    (∀ t : rsp, t.pipeline.dfwb_latch.dest = 0 → t.regs 0 = 0 →
      (rsp_wb_stage t).regs = t.regs) ∧
    (∀ (E : Env) (s : rsp), HandlersWriteOnlyExdf E →
      halted E s = false → halted E (rsp_cycles E 1 s) = false →
      halted E (rsp_cycles E 2 s) = false →
      callHandler E (rsp_ex_dispatch E (rsp_df_stage (rsp_wb_stage s)))
        = (rsp_ex_dispatch E (rsp_df_stage (rsp_wb_stage s))).state →
      (rsp_cycles E 1 s).pipeline.exdf_latch.dest = 0 ∧
      (rsp_cycles E 2 s).pipeline.dfwb_latch.dest = 0 ∧
      (rsp_cycles E 3 s).regs = (rsp_cycles E 2 s).regs) := by
  refine ⟨fun E s => ⟨rfl, rfl, fun hnop => ?_⟩, rsp_wb_stage_regs_of_zero, ?_⟩
  · have e : rsp_ex_stage E s = (rsp_ex_dispatch E s).state := hnop
    rw [e]
    exact ⟨rfl, rfl⟩
  · intro E s hE h0 h1 h2 hnop
    obtain ⟨_, _, _, a4, _, _, _⟩ := rsp_cycle_fields E s hE h0
    obtain ⟨b1, _, b3, _, _, _, _⟩ := rsp_cycle_fields E (rsp_cycle E s) hE h1
    obtain ⟨c1, _, _, _, _, _, _⟩ := rsp_cycle_fields E (rsp_cycle E (rsp_cycle E s)) hE h2
    have hd1 : (rsp_cycle E s).pipeline.exdf_latch.dest = 0 := by
      rw [a4, hnop]; rfl
    have hd2 : (rsp_cycle E (rsp_cycle E s)).pipeline.dfwb_latch.dest = 0 := by
      rw [b3]; exact hd1
    have hz : (rsp_cycle E (rsp_cycle E s)).regs 0 = 0 := by
      rw [b1]; exact rsp_wb_stage_regs_zero _
    refine ⟨hd1, hd2, ?_⟩
    show (rsp_cycle E (rsp_cycle E (rsp_cycle E s))).regs = (rsp_cycle E (rsp_cycle E s)).regs
    rw [c1]
    exact rsp_wb_stage_regs_of_zero _ hd2 hz

/-- C17 at `latencyScenario`: the zero word called in the first cycle writes
nothing, and the third cycle leaves `r1 = 5` and `r2 = 7` as they were. -/
theorem default_destination_zero_witness :
    (rsp_cycles demoEnv 1 latencyScenario).pipeline.exdf_latch.dest = 0 ∧
    (rsp_cycles demoEnv 2 latencyScenario).pipeline.dfwb_latch.dest = 0 ∧
    (rsp_cycles demoEnv 3 latencyScenario).regs = (rsp_cycles demoEnv 2 latencyScenario).regs ∧
    (rsp_cycles demoEnv 3 latencyScenario).regs 1 = 5 ∧
    (rsp_cycles demoEnv 3 latencyScenario).regs 2 = 7 := by
  obtain ⟨h1, h2, h3⟩ := default_destination_zero.2.2 demoEnv latencyScenario
    demoEnv_writes_only_exdf (by decide) (by decide) (by decide) rfl
  exact ⟨h1, h2, h3, by decide, by decide⟩

/-! ## Two-level bypass -/

/-- C18. In a running cycle the operands that the execute stage passes to the
handler are, over the state at the start of the cycle, the two-level bypass at the
`rs` and `rt` fields of the old `rdex` instruction word: zero for register 0, else
the old `exdf` result when the old `exdf` latch targets the register, else the old
`dfwb` result when the old `dfwb` latch targets it, else the old register; the old
`exdf` latch wins when both target it. -/
theorem two_level_bypass (E : Env) (s : rsp) (hr : halted E s = false) :
    (∃ d, rsp_cycle_dispatches E s = [d] ∧
      d.rs_reg = bypass_operand s (E.GET_RS s.pipeline.rdex_latch.iw) ∧
      d.rt_reg = bypass_operand s (E.GET_RT s.pipeline.rdex_latch.iw)) ∧
    (∀ r, r ≠ 0 → r = s.pipeline.exdf_latch.dest → r = s.pipeline.dfwb_latch.dest →
      bypass_operand s r = s.pipeline.exdf_latch.result) := by
  refine ⟨⟨_, rsp_cycle_dispatches_running E s hr, ?_, ?_⟩, ?_⟩
  · exact rsp_cycle_operand s _
  · exact rsp_cycle_operand s _
  · intro r h0 hx _
    unfold bypass_operand
    rw [if_neg h0, if_pos hx]

/-- C18 at `twoProducers`: the old `exdf` latch (result 9) and the old `dfwb` latch
(result 5) both target register 1, and the handler receives 9. -/
theorem two_level_bypass_witness :
    twoProducers.pipeline.exdf_latch.dest = 1 ∧
    twoProducers.pipeline.dfwb_latch.dest = 1 ∧
    demoEnv.GET_RS twoProducers.pipeline.rdex_latch.iw = 1 ∧
    ∃ d, rsp_cycle_dispatches demoEnv twoProducers = [d] ∧ d.rs_reg = 9 ∧ d.rt_reg = 0 := by
  obtain ⟨⟨d, hd, hrs, hrt⟩, _⟩ := two_level_bypass demoEnv twoProducers (by decide)
  refine ⟨rfl, rfl, by decide, d, hd, ?_, ?_⟩
  · rw [hrs]; decide
  · rw [hrt]; decide

end Cen64
